import Mathlib

/-!
Verification of the doris-operator node-draining and compute-group
reconciliation logic (pkg/controller/sub_controller/fe/prepare_modify.go
and the computegroups controller).

The Go code is shallowly embedded: external effects (the Kubernetes
client, the administrative MySQL directory client, the event recorder)
are passed in as explicit environments recording the result each call
would produce, and each embedded function returns a record of the
removal calls it issued together with the error value it returns.
Machine int32 arithmetic is modelled with unbounded Int (the replica
counts involved are far from overflow).
-/

set_option autoImplicit false

namespace DorisOperator

/-! ## String helpers mirroring the Go standard library

`splitOnChar c l` mirrors `strings.Split(s, sep)` for a one-character
separator: it always returns a non-empty list of (possibly empty)
segments. `goAtoi` mirrors `strconv.Atoi`: an optional sign followed by
one or more decimal digits (overflow is not modelled).
-/

def splitOnChar (c : Char) : List Char → List (List Char)
  | [] => [[]]
  | x :: xs =>
    let r := splitOnChar c xs
    if x = c then [] :: r
    else
      match r with
      | [] => [[x]]
      | y :: ys => (x :: y) :: ys

def digitsToNat : List Char → Nat → Option Nat
  | [], acc => some acc
  | d :: ds, acc =>
    if d.isDigit then digitsToNat ds (acc * 10 + (d.toNat - ('0').toNat))
    else none

/-- All-digit, non-empty parse of a natural number. -/
def parseNatDigits (l : List Char) : Option Nat :=
  match l with
  | [] => none
  | _ => digitsToNat l 0

/-- Model of `strconv.Atoi`: optional sign, then one or more digits. -/
def goAtoi (l : List Char) : Option Int :=
  match l with
  | '+' :: rest => (parseNatDigits rest).map (fun n => (n : Int))
  | '-' :: rest => (parseNatDigits rest).map (fun n => -(n : Int))
  | _ => (parseNatDigits l).map (fun n => (n : Int))

/-! ## Compute-group backend drain: scaledOutBENodesBySQL -/

/-- A backend node record as returned by `SHOW BACKENDS` for one compute
group. Only the host is inspected by the drain logic; `beId` stands for
the remaining metadata carried through to the DropBE statement. -/
structure Backend where
  host : String
  beId : Nat
deriving DecidableEq

/-- Ordinal extraction in `scaledOutBENodesBySQL`:
`split := strings.Split(node.Host, ".")`,
`splitCGIDArr := strings.Split(split[0], "-")`,
`podNum, err := strconv.Atoi(splitCGIDArr[len(splitCGIDArr)-1])`. -/
def parsePodOrdinal (host : String) : Option Int :=
  let split := splitOnChar ('.') host.data
  let first := split.headD []
  let splitCGIDArr := splitOnChar ('-') first
  goAtoi (splitCGIDArr.getLastD [])

/-- The selection loop of `scaledOutBENodesBySQL` (lines 676-689): walk
`allBackends`, parse each ordinal, fail on the first unparsable host,
keep nodes with `podNum >= cgKeepAmount`. -/
def computeDropNodes : List Backend → Int → Except String (List Backend)
  | [], _ => Except.ok []
  | node :: rest, cgKeepAmount =>
    match parsePodOrdinal node.host with
    | none => Except.error (("can not split host : ") ++ node.host)
    | some podNum =>
      match computeDropNodes rest cgKeepAmount with
      | Except.error e => Except.error e
      | Except.ok tail =>
        Except.ok (if cgKeepAmount ≤ podNum then node :: tail else tail)

/-- Environment of one `scaledOutBENodesBySQL` run: the outcome of
`mysql.NewDorisMasterSqlDB` (credential/config lookup and connection),
of `GetBackendsByCGName`, and of a `DropBE` call on a given node set. -/
structure BEDropEnv where
  connectErr : Option String
  backendsRes : Except String (List Backend)
  dropBEErr : List Backend → Option String

/-- Observable outcome of a drain attempt: the DropBE calls issued (each
with the exact node set passed) and the error value returned. -/
structure BEDropResult where
  dropCalls : List (List Backend)
  result : Option String
deriving DecidableEq

/-- Model of `scaledOutBENodesBySQL` (lines 637-699). Connection and
listing failures return the error; an unparsable host ordinal returns
the error; otherwise nodes with ordinal `>= cgKeepAmount` are dropped
through a single `DropBE` call, skipped entirely when the set is empty. -/
def scaledOutBENodesBySQL (env : BEDropEnv) (cgKeepAmount : Int) : BEDropResult :=
  match env.connectErr with
  | some e => { dropCalls := [], result := some e }
  | none =>
    match env.backendsRes with
    | Except.error e => { dropCalls := [], result := some e }
    | Except.ok allBackends =>
      match computeDropNodes allBackends cgKeepAmount with
      | Except.error e => { dropCalls := [], result := some e }
      | Except.ok dropNodes =>
        if dropNodes = [] then { dropCalls := [], result := none }
        else { dropCalls := [dropNodes], result := env.dropBEErr dropNodes }

/-! ## Metadata-tier (FE observer) drain: dropObserverBySqlClient -/

/-- A frontend node record as returned by `GetObservers`. Only the host
is inspected; `feId` stands for the rest of the metadata carried to the
DropObserver statement. -/
structure Frontend where
  host : String
  feId : Nat
deriving DecidableEq

/-- A pod as returned by `k8s.GetPods` (name and pod IP). -/
structure FEPod where
  name : String
  podIP : String
deriving DecidableEq

/-- Parse a non-negative ordinal from the trailing segment of a pod
name: split on the separator, take the final segment, parse as a
non-negative integer. -/
def parseTrailingNat (podName : List Char) : Option Nat :=
  parseNatDigits ((splitOnChar ('-') podName).getLastD [])

/-- Modelled from the spec: the Topology Resolver contract for one
frontend (the `mysql.BuildSeqNumberToFrontendMap` implementation is not
under src). DNS-stable mode (`podMap = none`): the ordinal is derived
from the node host field, stripping the known pod-name prefix and
parsing the trailing numeric suffix; unparsable ordinals fail with an
UnresolvableTopology error. IP mode (`podMap = some m`): the node host
(an IP) is looked up in the IP to pod-name mapping and the ordinal is
parsed from the recovered pod name; a missing or unparsable entry fails
with an UnresolvableTopology error. -/
def resolveFrontendOrdinal (podMap : Option (List (String × String)))
    (podTemplateName : String) (fe : Frontend) : Except String Nat :=
  match podMap with
  | none =>
    let podName := (splitOnChar ('.') fe.host.data).headD []
    if podTemplateName.data.isPrefixOf podName then
      match parseTrailingNat podName with
      | some n => Except.ok n
      | none => Except.error (("UnresolvableTopology: ") ++ fe.host)
    else Except.error (("UnresolvableTopology: ") ++ fe.host)
  | some m =>
    match m.lookup fe.host with
    | none => Except.error (("UnresolvableTopology: ") ++ fe.host)
    | some podName =>
      match parseTrailingNat podName.data with
      | some n => Except.ok n
      | none => Except.error (("UnresolvableTopology: ") ++ fe.host)

/-- Modelled from the spec: `mysql.BuildSeqNumberToFrontendMap` (not
under src) produces the mapping from ordinal index to frontend record,
failing when any record does not resolve. -/
def BuildSeqNumberToFrontendMap : List Frontend →
    Option (List (String × String)) → String →
    Except String (List (Nat × Frontend))
  | [], _, _ => Except.ok []
  | fe :: rest, podMap, podTemplateName =>
    match resolveFrontendOrdinal podMap podTemplateName fe with
    | Except.error e => Except.error e
    | Except.ok n =>
      match BuildSeqNumberToFrontendMap rest podMap podTemplateName with
      | Except.error e => Except.error e
      | Except.ok m => Except.ok ((n, fe) :: m)

/-- Insert one entry into a list sorted by descending ordinal. -/
def insertByOrdinalDesc (e : Nat × Frontend) :
    List (Nat × Frontend) → List (Nat × Frontend)
  | [] => [e]
  | x :: xs => if e.1 ≤ x.1 then x :: insertByOrdinalDesc e xs else e :: x :: xs

/-- Sort ordinal-to-frontend entries by descending ordinal. -/
def sortByOrdinalDesc : List (Nat × Frontend) → List (Nat × Frontend)
  | [] => []
  | x :: xs => insertByOrdinalDesc x (sortByOrdinalDesc xs)

/-- Modelled from the spec: `mysql.FindNeedDeletedFrontends` (not under
src) selects `needRemoved` nodes from the resolved ordinal mapping,
deterministically highest ordinals first. -/
def FindNeedDeletedFrontends (frontendMap : List (Nat × Frontend))
    (needRemoved : Int) : List Frontend :=
  ((sortByOrdinalDesc frontendMap).take needRemoved.toNat).map (fun e => e.2)

/-- Environment of one `dropObserverBySqlClient` run: the outcome of
`mysql.NewDorisMasterSqlDB`, of `GetObservers`, the resolved start mode
and pod template name, the outcome of `k8s.GetPods`, and of a
`DropObserver` call on a given frontend set. -/
structure FEDropEnv where
  connectErr : Option String
  observersRes : Except String (List Frontend)
  startModeFQDN : Bool
  podTemplateName : String
  podsRes : Except String (List FEPod)
  dropObserverErr : List Frontend → Option String

/-- Observable outcome of an observer drain attempt. -/
structure FEDropResult where
  dropCalls : List (List Frontend)
  result : Option String
deriving DecidableEq

/-- Model of `dropObserverBySqlClient` (lines 73-149). Connection and
GetObservers failures return the error. `needRemovedAmount` is
`len(allObserves) - replicas + electionNumber`; when it is not positive
the function returns nil without any removal call (lines 112-115).
Note the faithful quirk of lines 121-144: a `k8s.GetPods` failure or a
`BuildSeqNumberToFrontendMap` failure is logged and then `nil` is
returned, issuing no removal call but reporting success. Otherwise the
selected frontends are passed to a single `DropObserver` call whose
error is returned. -/
def dropObserverBySqlClient (env : FEDropEnv) (replicas electionNumber : Int) :
    FEDropResult :=
  match env.connectErr with
  | some e => { dropCalls := [], result := some e }
  | none =>
    match env.observersRes with
    | Except.error e => { dropCalls := [], result := some e }
    | Except.ok allObserves =>
      let needRemovedAmount : Int :=
        (allObserves.length : Int) - replicas + electionNumber
      if needRemovedAmount ≤ 0 then { dropCalls := [], result := none }
      else
        if env.startModeFQDN then
          match BuildSeqNumberToFrontendMap allObserves none env.podTemplateName with
          | Except.error _ => { dropCalls := [], result := none }
          | Except.ok frontendMap =>
            let observes := FindNeedDeletedFrontends frontendMap needRemovedAmount
            { dropCalls := [observes], result := env.dropObserverErr observes }
        else
          match env.podsRes with
          | Except.error _ => { dropCalls := [], result := none }
          | Except.ok pods =>
            let podMap :=
              (pods.filter
                (fun p => env.podTemplateName.data.isPrefixOf p.name.data)).map
                (fun p => (p.podIP, p.name))
            match BuildSeqNumberToFrontendMap allObserves (some podMap) env.podTemplateName with
            | Except.error _ => { dropCalls := [], result := none }
            | Except.ok frontendMap =>
              let observes := FindNeedDeletedFrontends frontendMap needRemovedAmount
              { dropCalls := [observes], result := env.dropObserverErr observes }

/-- Outcome of `prepareStatefulsetApply` once the existing StatefulSet
has been fetched: the election-number clamp applied to the desired
replica count, whether the observer drain was invoked, and the returned
error. -/
structure PrepareOutcome where
  effectiveReplicas : Int
  dropInvoked : Bool
  errReturned : Option String
deriving DecidableEq

/-- Model of the decision logic of `prepareStatefulsetApply` (lines
36-69), given that the existing StatefulSet was fetched successfully
(otherwise the function returns nil immediately). The desired replica
count is clamped up to the election number (lines 49-53); the drain is
invoked exactly when the clamped desired count is below the previously
applied count (lines 56-64), and its error is returned. -/
def prepareStatefulsetApply (env : FEDropEnv)
    (specReplicas oldStReplicas electionNumber : Int) : PrepareOutcome :=
  let replicas :=
    if specReplicas < electionNumber then electionNumber else specReplicas
  let wroa := replicas - oldStReplicas
  if wroa < 0 then
    let res := dropObserverBySqlClient env replicas electionNumber
    { effectiveReplicas := replicas, dropInvoked := true,
      errReturned := res.result }
  else
    { effectiveReplicas := replicas, dropInvoked := false, errReturned := none }

/-! ## Compute-group phase state machine and reconciliation -/

/-- The closed phase enumeration of a compute group status. -/
inductive Phase where
  | Reconciling
  | Scaling
  | Ready
  | Suspended
  | SuspendFailed
  | ResumeFailed
  | ScaleDownFailed
deriving DecidableEq

/-- A compute group in the cluster specification. `stsName`, `svcName`
stand for `GetCGStatefulsetName`/`GetCGServiceName` (pure name
generation, external to this file); `paths` is the number of storage
paths resolved from the group config
(`getCacheMaxSizeAndPaths`, external config parsing). -/
structure ComputeGroup where
  uniqueId : String
  replicas : Int
  stsName : String
  svcName : String
  paths : Nat
deriving DecidableEq

/-- A persisted `ComputeGroupStatus` entry. -/
structure CGStatusRec where
  uniqueId : String
  phase : Phase
  statefulsetName : String
  serviceName : String
  replicas : Int
  availableReplicas : Int
  suspendReplicas : Int
deriving DecidableEq

/-- Model of `getScaleType` (lines 353-358): report a scale-down when
the new desired replica count is below the currently applied one, or
when the persisted phase is ScaleDownFailed. -/
def getScaleType (stReplicas estReplicas : Int) (phase : Phase) : String :=
  if stReplicas < estReplicas ∨ phase = Phase.ScaleDownFailed then ("scaleDown")
  else ("")

/-- Outcome of the scale handling in `reconcileStatefulset`. -/
structure ReconcileOutcome where
  drainInvoked : Bool
  newPhase : Phase
  errReturned : Option String
deriving DecidableEq

/-- Model of the tail of `reconcileStatefulset` (lines 325-351), after
the existing StatefulSet was found and `ApplyStatefulSet` succeeded.
`stReplicas` is the desired replica count (both `st.Spec.Replicas` and
`cg.Replicas`, which agree since the StatefulSet is generated from the
group spec); `estReplicas` is the currently applied count; `phase` is
the persisted group phase. In the scaleDown case the drain
`scaledOutBENodesBySQL` runs with `cgKeepAmount = cg.Replicas`: on
error the phase becomes ScaleDownFailed and the error is returned, on
success the phase becomes Scaling. -/
def reconcileStatefulset (env : BEDropEnv) (stReplicas estReplicas : Int)
    (phase : Phase) : ReconcileOutcome :=
  if getScaleType stReplicas estReplicas phase = ("scaleDown") then
    match (scaledOutBENodesBySQL env stReplicas).result with
    | some e =>
      { drainInvoked := true, newPhase := Phase.ScaleDownFailed,
        errReturned := some e }
    | none =>
      { drainInvoked := true, newPhase := Phase.Scaling, errReturned := none }
  else { drainInvoked := false, newPhase := phase, errReturned := none }

/-- The fresh default status built at the top of `initialCGStatus`
(lines 365-372): phase Reconciling, names regenerated, replicas taken
from the spec, remaining counters zero. -/
def defaultCGStatusFor (cg : ComputeGroup) : CGStatusRec :=
  { uniqueId := cg.uniqueId, phase := Phase.Reconciling,
    statefulsetName := cg.stsName, serviceName := cg.svcName,
    replicas := cg.replicas, availableReplicas := 0, suspendReplicas := 0 }

/-- Model of `initialCGStatus` (lines 361-388): find the first status
entry with the group unique id; replace it with the default status,
except that a phase in {ScaleDownFailed, Suspended, SuspendFailed,
ResumeFailed, Scaling} is preserved and SuspendReplicas is carried
over; append the default status when no entry matches. -/
def initialCGStatus (cg : ComputeGroup) : List CGStatusRec → List CGStatusRec
  | [] => [defaultCGStatusFor cg]
  | s :: rest =>
    if s.uniqueId = cg.uniqueId then
      { defaultCGStatusFor cg with
        phase :=
          if s.phase = Phase.ScaleDownFailed ∨ s.phase = Phase.Suspended ∨
              s.phase = Phase.SuspendFailed ∨ s.phase = Phase.ResumeFailed ∨
              s.phase = Phase.Scaling
          then s.phase else Phase.Reconciling,
        suspendReplicas := s.suspendReplicas } :: rest
    else s :: initialCGStatus cg rest

/-- First status entry carrying the given unique id. -/
def findCGStatus (uid : String) (cgss : List CGStatusRec) : Option CGStatusRec :=
  cgss.find? (fun s => s.uniqueId = uid)

/-! ## ClearResources -/

/-- `strings.ReplaceAll(uniqueId, underscore, dash)` from line 461. -/
def replaceUnderscore (s : String) : String :=
  String.mk (s.data.map (fun c => if c = '_' then '-' else c))

/-- Environment for `ClearResources`: outcomes of
`k8s.DeleteStatefulset` and `k8s.DeleteService` keyed by resource name,
and the drain environment used by `scaledOutBENodesBySQL` keyed by
compute group name. -/
structure DeleteEnv where
  stsDeleteErr : String → Option String
  svcDeleteErr : String → Option String
  beDropEnv : String → BEDropEnv

/-- First pass of `ClearResources` (lines 430-441): split the persisted
statuses into those whose unique id still appears in the spec (`eCGs`)
and those that must be cleared (`clearCGs`), preserving order. -/
def splitCGStatuses (specIds : List String) :
    List CGStatusRec → List CGStatusRec × List CGStatusRec
  | [] => ([], [])
  | s :: rest =>
    let r := splitCGStatuses specIds rest
    if specIds.contains s.uniqueId then (s :: r.1, r.2)
    else (r.1, s :: r.2)

/-- Both resource deletions of one group succeeded (the `cleared` flag
of lines 445-456). -/
def clearedOf (env : DeleteEnv) (s : CGStatusRec) : Bool :=
  (env.stsDeleteErr s.statefulsetName).isNone &&
    (env.svcDeleteErr s.serviceName).isNone

/-- Second pass of `ClearResources` (lines 443-469): for each group to
clear, delete its StatefulSet and Service, recording a warning event
for each failure; when either deletion failed the entry is kept for
retry, otherwise the backend nodes are dropped with keep amount 0 and
a drop failure only records a warning event. Returns the retained
entries and the recorded events. -/
def processClearCGs (env : DeleteEnv) :
    List CGStatusRec → List CGStatusRec × List String
  | [] => ([], [])
  | s :: rest =>
    let stsEvt :=
      match env.stsDeleteErr s.statefulsetName with
      | some e => [("CGStatefulsetDeleteFailed: ") ++ e]
      | none => []
    let svcEvt :=
      match env.svcDeleteErr s.serviceName with
      | some e => [("CGServiceDeleteFailed: ") ++ e]
      | none => []
    let retainedAndDropEvt :=
      if clearedOf env s then
        match (scaledOutBENodesBySQL
            (env.beDropEnv (replaceUnderscore s.uniqueId)) 0).result with
        | some e =>
          (([] : List CGStatusRec),
            [("CGSqlExecFailed: computeGroupSync dropCGBySQLClient failed: ") ++ e])
        | none => (([] : List CGStatusRec), ([] : List String))
      else ([s], ([] : List String))
    let r := processClearCGs env rest
    (retainedAndDropEvt.1 ++ r.1,
      stsEvt ++ svcEvt ++ retainedAndDropEvt.2 ++ r.2)

/-- Observable outcome of `ClearResources`. -/
structure ClearResourcesResult where
  finalStatuses : List CGStatusRec
  events : List String
  retBool : Bool
  retErr : Option String
deriving DecidableEq

/-- Model of `ClearResources` (lines 425-487). The two
`ClearStatefulsetUnusedPVCs` loops of lines 471-482 only delete PVCs
and log failures; they touch neither the status list nor the return
value and are modelled separately by `ClearStatefulsetUnusedPVCs`. The
final status list is the retained spec-matching entries followed by the
entries whose resource deletion failed, and the function always
returns `(true, nil)`. -/
def ClearResources (specIds : List String) (statuses : List CGStatusRec)
    (env : DeleteEnv) : ClearResourcesResult :=
  let split := splitCGStatuses specIds statuses
  let processed := processClearCGs env split.2
  { finalStatuses := split.1 ++ processed.1, events := processed.2,
    retBool := true, retErr := none }

/-! ## Storage reclamation: ClearStatefulsetUnusedPVCs -/

/-- Modelled from the spec: the log-volume tag (the `LogStoreName`
constant is not under src). -/
def LogStoreName : String := ("log")

/-- Modelled from the spec: the storage-volume tag prefix (the
`StorageStorePreName` constant is not under src). -/
def StorageStorePreName : String := ("storage")

/-- Modelled from the spec: `resource.BuildPVCName` (not under src)
builds a persistent-volume-claim name by the deterministic naming
convention from the StatefulSet name, the replica ordinal, and the
volume tag. -/
def BuildPVCName (stsName ordinal tag : String) : String :=
  stsName ++ ("-") ++ ordinal ++ ("-") ++ tag

/-- Reserved volume names for one ordinal (lines 531-538 body): the log
volume plus one storage volume per path index. -/
def reserveForOrdinal (stsName : String) (i : Nat) (paths : Nat) : List String :=
  BuildPVCName stsName (toString i) LogStoreName ::
    (List.range paths).map
      (fun j => BuildPVCName stsName (toString i) (StorageStorePreName ++ toString j))

/-- The reserve list of lines 531-538: ordinals 0 to replicas-1 in
order, each contributing its log volume and storage volumes. -/
def reservePVCNames (stsName : String) (paths : Nat) : Nat → List String
  | 0 => []
  | i + 1 => reservePVCNames stsName paths i ++ reserveForOrdinal stsName i paths

/-- The compute-group lookup loop of lines 494-503: the last
spec entry carrying the unique id, none when the group left the spec. -/
def findLastCG (specCGs : List ComputeGroup) (uid : String) : Option ComputeGroup :=
  specCGs.foldl (fun acc c => if c.uniqueId = uid then some c else acc) none

/-- Environment for `ClearStatefulsetUnusedPVCs`: the labeled PVC
listing outcome and the per-name deletion outcome. -/
structure PVCEnv where
  listResult : Except String (List String)
  deleteErr : String → Option String

/-- Observable outcome of `ClearStatefulsetUnusedPVCs`: deletion
attempts in order and the returned (merged) error. -/
structure ClearPVCResult where
  deleted : List String
  err : Option String
deriving DecidableEq

/-- `utils.MergeError`: keep the first error, append later ones. -/
def mergeError : Option String → String → Option String
  | none, e => some e
  | some a, e => some (a ++ ("; ") ++ e)

/-- The deletion loop of lines 547-554 over the remaining PVC names:
attempt every deletion, merging failures into one aggregate error. -/
def deletePVCList (env : PVCEnv) (names : List String) : Option String :=
  names.foldl
    (fun acc n =>
      match env.deleteErr n with
      | some e => mergeError acc e
      | none => acc)
    none

/-- Model of `ClearStatefulsetUnusedPVCs` (lines 493-556). The PVC map
of lines 505-517 is keyed by name, so duplicate names collapse
(`dedup`). When the group is still in the spec: a Suspended or
SuspendFailed phase or zero desired replicas returns nil deleting
nothing (lines 525-527); otherwise the reserve names are removed from
the map and every remaining claim is deleted, merging failures. When
the group left the spec entirely, every labeled claim is deleted. -/
def ClearStatefulsetUnusedPVCs (specCGs : List ComputeGroup)
    (cgs : CGStatusRec) (env : PVCEnv) : ClearPVCResult :=
  match env.listResult with
  | Except.error e => { deleted := [], err := some e }
  | Except.ok pvcNames =>
    let pvcMapKeys := pvcNames.dedup
    match findLastCG specCGs cgs.uniqueId with
    | some cg =>
      if cgs.phase = Phase.Suspended ∨ cgs.phase = Phase.SuspendFailed ∨
          cg.replicas = 0 then
        { deleted := [], err := none }
      else
        let reserve := reservePVCNames cg.stsName cg.paths cg.replicas.toNat
        let toDelete := pvcMapKeys.filter (fun n => ¬ reserve.contains n)
        { deleted := toDelete, err := deletePVCList env toDelete }
    | none =>
      { deleted := pvcMapKeys, err := deletePVCList env pvcMapKeys }

/-! ## Helper lemmas -/

/-- When every backend host parses, the selection loop succeeds and
returns exactly the backends whose ordinal reaches the keep amount. -/
theorem computeDropNodes_of_allParse (cgKeepAmount : Int) :
    ∀ bs : List Backend, (∀ b ∈ bs, (parsePodOrdinal b.host).isSome) →
      computeDropNodes bs cgKeepAmount =
        Except.ok (bs.filter
          (fun b => cgKeepAmount ≤ (parsePodOrdinal b.host).getD 0)) := by
  intro bs
  induction bs with
  | nil => intro _; rfl
  | cons b rest ih =>
    intro h
    have hb : (parsePodOrdinal b.host).isSome := h b (by simp)
    obtain ⟨n, hn⟩ := Option.isSome_iff_exists.mp hb
    have hrest := ih (fun x hx => h x (by simp [hx]))
    simp only [computeDropNodes, hn, hrest, List.filter_cons, Option.getD_some]
    by_cases hle : cgKeepAmount ≤ n
    · simp [hle]
    · simp [hle]

/-! ## C1 -/

/-- C1: for a compute-group drain with keep amount `cgKeepAmount`,
`scaledOutBENodesBySQL` selects exactly the live backends of the group
whose ordinal, parsed from the trailing numeric segment of the host
name, is at least the keep amount, and issues at most one DropBE call
carrying exactly that set — no call at all when the set is empty. -/
theorem scaledOutBENodesBySQL_drop_set (env : BEDropEnv) (cgKeepAmount : Int)
    (bs : List Backend)
    (hc : env.connectErr = none)
    (hb : env.backendsRes = Except.ok bs)
    (hp : ∀ b ∈ bs, (parsePodOrdinal b.host).isSome) :
    (scaledOutBENodesBySQL env cgKeepAmount).dropCalls =
      (if bs.filter (fun b => cgKeepAmount ≤ (parsePodOrdinal b.host).getD 0) = []
       then []
       else [bs.filter (fun b => cgKeepAmount ≤ (parsePodOrdinal b.host).getD 0)]) := by
  have hcd := computeDropNodes_of_allParse cgKeepAmount bs hp
  by_cases hnil :
      bs.filter (fun b => cgKeepAmount ≤ (parsePodOrdinal b.host).getD 0) = []
  · simp [scaledOutBENodesBySQL, hc, hb, hcd, hnil]
  · simp [scaledOutBENodesBySQL, hc, hb, hcd, hnil]

def c1Backends : List Backend :=
  [⟨("cg-x1-2.cluster.local"), 10⟩, ⟨("cg-x1-0.cluster.local"), 11⟩,
    ⟨("cg-x1-1.cluster.local"), 12⟩]

def c1Env : BEDropEnv :=
  { connectErr := none, backendsRes := Except.ok c1Backends,
    dropBEErr := fun _ => none }

/-- Witness for C1 at a concrete three-node group with keep amount 1. -/
theorem scaledOutBENodesBySQL_drop_set_witness :
    (scaledOutBENodesBySQL c1Env 1).dropCalls =
      (if c1Backends.filter (fun b => (1 : Int) ≤ (parsePodOrdinal b.host).getD 0) = []
       then []
       else [c1Backends.filter (fun b => (1 : Int) ≤ (parsePodOrdinal b.host).getD 0)]) :=
  scaledOutBENodesBySQL_drop_set c1Env 1 c1Backends rfl rfl (by decide)

/-! ## C6 -/

/-- C6: in `reconcileStatefulset`, whenever `getScaleType` reports a
scale-down, a failing drain sets the phase to ScaleDownFailed and
returns the error, and a successful drain sets the phase to Scaling. -/
theorem reconcileStatefulset_scaleDown_phases (env : BEDropEnv)
    (stReplicas estReplicas : Int) (phase : Phase)
    (h : getScaleType stReplicas estReplicas phase = ("scaleDown")) :
    (∀ e, (scaledOutBENodesBySQL env stReplicas).result = some e →
        reconcileStatefulset env stReplicas estReplicas phase =
          { drainInvoked := true, newPhase := Phase.ScaleDownFailed,
            errReturned := some e }) ∧
    ((scaledOutBENodesBySQL env stReplicas).result = none →
        reconcileStatefulset env stReplicas estReplicas phase =
          { drainInvoked := true, newPhase := Phase.Scaling,
            errReturned := none }) := by
  constructor
  · intro e he
    simp [reconcileStatefulset, h, he]
  · intro he
    simp [reconcileStatefulset, h, he]

def c6Env : BEDropEnv :=
  { connectErr := some ("connection refused"), backendsRes := Except.ok [],
    dropBEErr := fun _ => none }

/-- Witness for C6: a shrink from 3 to 2 replicas whose drain fails
with a connection error ends in ScaleDownFailed carrying that error. -/
theorem reconcileStatefulset_scaleDown_phases_witness :
    reconcileStatefulset c6Env 2 3 Phase.Reconciling =
      { drainInvoked := true, newPhase := Phase.ScaleDownFailed,
        errReturned := some ("connection refused") } :=
  (reconcileStatefulset_scaleDown_phases c6Env 2 3 Phase.Reconciling
    (by decide)).1 ("connection refused") rfl

/-! ## C3 -/

/-- The drain-invocation flag of `prepareStatefulsetApply` is exactly
the sign test on the clamped replica delta. -/
theorem prepareStatefulsetApply_dropInvoked (env : FEDropEnv)
    (specReplicas oldStReplicas electionNumber : Int) :
    (prepareStatefulsetApply env specReplicas oldStReplicas electionNumber).dropInvoked =
      decide ((if specReplicas < electionNumber then electionNumber
               else specReplicas) - oldStReplicas < 0) := by
  unfold prepareStatefulsetApply
  by_cases h :
      (if specReplicas < electionNumber then electionNumber else specReplicas) -
        oldStReplicas < 0
  · simp [h]
  · simp [h]

def c3Env : BEDropEnv :=
  { connectErr := some ("connection refused"), backendsRes := Except.ok [],
    dropBEErr := fun _ => none }

/-- Counterexample for C3 as stated: with desired count 3 equal to the
previously applied count 3 but a persisted ScaleDownFailed phase,
`getScaleType` still reports a scale-down and the compute-group path
invokes `scaledOutBENodesBySQL`. -/
theorem reconcile_no_shrink_still_drains_cex :
    (3 : Int) ≤ 3 ∧
      (reconcileStatefulset c3Env 3 3 Phase.ScaleDownFailed).drainInvoked = true := by
  decide

def c3FEEnv : FEDropEnv :=
  { connectErr := none, observersRes := Except.ok [], startModeFQDN := true,
    podTemplateName := ("doris-fe"), podsRes := Except.ok [],
    dropObserverErr := fun _ => none }

/-- C3 (amended): when the desired replica count is at least the
previously applied one, the FE path never invokes
`dropObserverBySqlClient`, and the compute-group path does not invoke
`scaledOutBENodesBySQL` unless the persisted phase is ScaleDownFailed
(the sticky retry forced by `getScaleType`). -/
theorem no_drain_without_shrink (env : FEDropEnv) (benv : BEDropEnv)
    (specReplicas oldStReplicas electionNumber stR estR : Int) (phase : Phase)
    (hfe : oldStReplicas ≤ specReplicas)
    (hbe : estR ≤ stR)
    (hph : phase ≠ Phase.ScaleDownFailed) :
    (prepareStatefulsetApply env specReplicas oldStReplicas electionNumber).dropInvoked
        = false ∧
      (reconcileStatefulset benv stR estR phase).drainInvoked = false := by
  constructor
  · rw [prepareStatefulsetApply_dropInvoked]
    simp only [decide_eq_false_iff_not]
    by_cases h : specReplicas < electionNumber
    · rw [if_pos h]; omega
    · rw [if_neg h]; omega
  · have hscale : getScaleType stR estR phase = ("") := by
      unfold getScaleType
      rw [if_neg]
      push_neg
      exact ⟨by omega, hph⟩
    have hne : (("") : String) ≠ ("scaleDown") := by decide
    simp [reconcileStatefulset, hscale, hne]

/-- Witness for the amended C3 at desired = previous = 3. -/
theorem no_drain_without_shrink_witness :
    (prepareStatefulsetApply c3FEEnv 3 3 1).dropInvoked = false ∧
      (reconcileStatefulset c3Env 3 3 Phase.Reconciling).drainInvoked = false :=
  no_drain_without_shrink c3FEEnv c3Env 3 3 1 3 3 Phase.Reconciling
    (by decide) (by decide) (by decide)

/-! ## C5 and C9 -/

/-- Re-initialization keeps the first matching status entry findable
and preserves any phase in the preservation set of lines 376-378. -/
theorem initialCGStatus_find_preserves (cg : ComputeGroup) :
    ∀ (cgss : List CGStatusRec) (s : CGStatusRec),
      findCGStatus cg.uniqueId cgss = some s →
      (s.phase = Phase.ScaleDownFailed ∨ s.phase = Phase.Suspended ∨
        s.phase = Phase.SuspendFailed ∨ s.phase = Phase.ResumeFailed ∨
        s.phase = Phase.Scaling) →
      ∃ s2, findCGStatus cg.uniqueId (initialCGStatus cg cgss) = some s2 ∧
        s2.phase = s.phase := by
  intro cgss
  induction cgss with
  | nil =>
    intro s h _
    simp [findCGStatus] at h
  | cons t rest ih =>
    intro s hfind hsticky
    by_cases ht : t.uniqueId = cg.uniqueId
    · have hpred : (decide (t.uniqueId = cg.uniqueId)) = true := by
        simp [ht]
      have hfind2 : findCGStatus cg.uniqueId (t :: rest) = some t := by
        simp [findCGStatus, List.find?_cons_of_pos, ht]
      have hst : s = t := by
        rw [hfind] at hfind2
        exact Option.some_injective _ hfind2
      subst hst
      refine ⟨{ defaultCGStatusFor cg with
          phase := if s.phase = Phase.ScaleDownFailed ∨ s.phase = Phase.Suspended ∨
              s.phase = Phase.SuspendFailed ∨ s.phase = Phase.ResumeFailed ∨
              s.phase = Phase.Scaling
            then s.phase else Phase.Reconciling,
          suspendReplicas := s.suspendReplicas }, ?_, ?_⟩
      · simp [initialCGStatus, ht, findCGStatus, List.find?_cons_of_pos,
          defaultCGStatusFor]
      · simp [defaultCGStatusFor, hsticky]
    · have hfind2 : findCGStatus cg.uniqueId rest = some s := by
        simpa [findCGStatus, List.find?_cons_of_neg, ht] using hfind
      obtain ⟨s2, h2f, h2p⟩ := ih s hfind2 hsticky
      refine ⟨s2, ?_, h2p⟩
      simpa [initialCGStatus, ht, findCGStatus, List.find?_cons_of_neg] using h2f

/-- C5: re-initialization by `initialCGStatus` preserves an existing
ScaleDownFailed, Suspended, SuspendFailed or ResumeFailed phase
instead of resetting it to Reconciling, and doing so twice in a row
with no intervening successful drain still yields the same phase
(idempotence on sticky phases). -/
theorem initialCGStatus_sticky_phases (cg : ComputeGroup)
    (cgss : List CGStatusRec) (s : CGStatusRec)
    (hfind : findCGStatus cg.uniqueId cgss = some s)
    (hsticky : s.phase = Phase.ScaleDownFailed ∨ s.phase = Phase.Suspended ∨
      s.phase = Phase.SuspendFailed ∨ s.phase = Phase.ResumeFailed) :
    ∃ s2 s3,
      findCGStatus cg.uniqueId (initialCGStatus cg cgss) = some s2 ∧
        s2.phase = s.phase ∧
      findCGStatus cg.uniqueId (initialCGStatus cg (initialCGStatus cg cgss)) =
          some s3 ∧
        s3.phase = s.phase := by
  have h5 : s.phase = Phase.ScaleDownFailed ∨ s.phase = Phase.Suspended ∨
      s.phase = Phase.SuspendFailed ∨ s.phase = Phase.ResumeFailed ∨
      s.phase = Phase.Scaling := by tauto
  obtain ⟨s2, h2f, h2p⟩ := initialCGStatus_find_preserves cg cgss s hfind h5
  have h5b : s2.phase = Phase.ScaleDownFailed ∨ s2.phase = Phase.Suspended ∨
      s2.phase = Phase.SuspendFailed ∨ s2.phase = Phase.ResumeFailed ∨
      s2.phase = Phase.Scaling := by rw [h2p]; exact h5
  obtain ⟨s3, h3f, h3p⟩ :=
    initialCGStatus_find_preserves cg (initialCGStatus cg cgss) s2 h2f h5b
  exact ⟨s2, s3, h2f, h2p, h3f, h3p.trans h2p⟩

def c5Cg : ComputeGroup :=
  { uniqueId := ("g1"), replicas := 2, stsName := ("sts-g1"),
    svcName := ("svc-g1"), paths := 1 }

def c5Status : CGStatusRec :=
  { uniqueId := ("g1"), phase := Phase.ScaleDownFailed,
    statefulsetName := ("sts-g1"), serviceName := ("svc-g1"), replicas := 3,
    availableReplicas := 0, suspendReplicas := 0 }

/-- Witness for C5: a ScaleDownFailed entry survives two successive
re-initializations. -/
theorem initialCGStatus_sticky_phases_witness :
    ∃ s2 s3,
      findCGStatus c5Cg.uniqueId (initialCGStatus c5Cg [c5Status]) = some s2 ∧
        s2.phase = c5Status.phase ∧
      findCGStatus c5Cg.uniqueId
          (initialCGStatus c5Cg (initialCGStatus c5Cg [c5Status])) = some s3 ∧
        s3.phase = c5Status.phase :=
  initialCGStatus_sticky_phases c5Cg [c5Status] c5Status (by decide)
    (Or.inl (by decide))

/-- C9: re-initialization also preserves an existing Scaling phase,
even though Scaling is not among the sticky phases the spec lists. -/
theorem initialCGStatus_preserves_scaling (cg : ComputeGroup)
    (cgss : List CGStatusRec) (s : CGStatusRec)
    (hfind : findCGStatus cg.uniqueId cgss = some s)
    (hp : s.phase = Phase.Scaling) :
    ∃ s2, findCGStatus cg.uniqueId (initialCGStatus cg cgss) = some s2 ∧
      s2.phase = Phase.Scaling := by
  obtain ⟨s2, h2f, h2p⟩ :=
    initialCGStatus_find_preserves cg cgss s hfind (by tauto)
  exact ⟨s2, h2f, h2p.trans hp⟩

def c9Status : CGStatusRec :=
  { uniqueId := ("g1"), phase := Phase.Scaling,
    statefulsetName := ("sts-g1"), serviceName := ("svc-g1"), replicas := 3,
    availableReplicas := 0, suspendReplicas := 0 }

/-- Witness for C9: a Scaling entry keeps phase Scaling across
re-initialization. -/
theorem initialCGStatus_preserves_scaling_witness :
    ∃ s2, findCGStatus c5Cg.uniqueId (initialCGStatus c5Cg [c9Status]) = some s2 ∧
      s2.phase = Phase.Scaling :=
  initialCGStatus_preserves_scaling c5Cg [c9Status] c9Status (by decide) (by decide)

/-! ## C2 -/

theorem insertByOrdinalDesc_length (e : Nat × Frontend) :
    ∀ l : List (Nat × Frontend), (insertByOrdinalDesc e l).length = l.length + 1 := by
  intro l
  induction l with
  | nil => rfl
  | cons x xs ih =>
    by_cases h : e.1 ≤ x.1
    · simp [insertByOrdinalDesc, h, ih]
    · simp [insertByOrdinalDesc, h]

theorem sortByOrdinalDesc_length :
    ∀ l : List (Nat × Frontend), (sortByOrdinalDesc l).length = l.length := by
  intro l
  induction l with
  | nil => rfl
  | cons x xs ih =>
    simp [sortByOrdinalDesc, insertByOrdinalDesc_length, ih]

/-- The deterministic metadata-tier selection returns exactly
`needRemoved` frontends whenever the ordinal mapping is large enough. -/
theorem FindNeedDeletedFrontends_length (m : List (Nat × Frontend))
    (needRemoved : Int) (h : needRemoved.toNat ≤ m.length) :
    (FindNeedDeletedFrontends m needRemoved).length = needRemoved.toNat := by
  simp [FindNeedDeletedFrontends, List.length_take, sortByOrdinalDesc_length]
  omega

/-- C2: for the metadata-tier drain, `needRemoved` is
`len(allObserves) - replicas + electionNumber`; when it is not
positive the function issues no removal command and returns nil (a
normal non-error outcome); when it is positive it selects exactly
`needRemoved` frontends from the ordinal mapping and issues exactly
one DropObserver call with that set. -/
theorem dropObserverBySqlClient_drain_spec (env : FEDropEnv)
    (replicas electionNumber : Int) (obs : List Frontend)
    (fmap : List (Nat × Frontend))
    (hc : env.connectErr = none)
    (ho : env.observersRes = Except.ok obs)
    (hm : env.startModeFQDN = true)
    (hf : BuildSeqNumberToFrontendMap obs none env.podTemplateName = Except.ok fmap)
    (hlen : ((obs.length : Int) - replicas + electionNumber).toNat ≤ fmap.length) :
    (((obs.length : Int) - replicas + electionNumber) ≤ 0 →
        dropObserverBySqlClient env replicas electionNumber =
          { dropCalls := [], result := none }) ∧
      (0 < ((obs.length : Int) - replicas + electionNumber) →
        dropObserverBySqlClient env replicas electionNumber =
            { dropCalls :=
                [FindNeedDeletedFrontends fmap
                  ((obs.length : Int) - replicas + electionNumber)],
              result := env.dropObserverErr
                (FindNeedDeletedFrontends fmap
                  ((obs.length : Int) - replicas + electionNumber)) } ∧
          (FindNeedDeletedFrontends fmap
              ((obs.length : Int) - replicas + electionNumber)).length =
            ((obs.length : Int) - replicas + electionNumber).toNat) := by
  constructor
  · intro hle
    simp [dropObserverBySqlClient, hc, ho, hle]
  · intro hpos
    have hnle : ¬ ((obs.length : Int) - replicas + electionNumber ≤ 0) := by omega
    refine ⟨?_, FindNeedDeletedFrontends_length _ _ hlen⟩
    simp [dropObserverBySqlClient, hc, ho, hm, hf, hnle]

def c2Obs : List Frontend :=
  [⟨("doris-fe-0.svc"), 0⟩, ⟨("doris-fe-1.svc"), 1⟩, ⟨("doris-fe-2.svc"), 2⟩]

def c2Fmap : List (Nat × Frontend) :=
  [(0, ⟨("doris-fe-0.svc"), 0⟩), (1, ⟨("doris-fe-1.svc"), 1⟩),
    (2, ⟨("doris-fe-2.svc"), 2⟩)]

def c2Env : FEDropEnv :=
  { connectErr := none, observersRes := Except.ok c2Obs, startModeFQDN := true,
    podTemplateName := ("doris-fe"), podsRes := Except.ok [],
    dropObserverErr := fun _ => none }

/-- Witness for C2: three live observers, desired replicas 3, quorum 1,
so one frontend is selected and dropped through one call. -/
theorem dropObserverBySqlClient_drain_spec_witness :
    dropObserverBySqlClient c2Env 3 1 =
        { dropCalls :=
            [FindNeedDeletedFrontends c2Fmap ((c2Obs.length : Int) - 3 + 1)],
          result := c2Env.dropObserverErr
            (FindNeedDeletedFrontends c2Fmap ((c2Obs.length : Int) - 3 + 1)) } ∧
      (FindNeedDeletedFrontends c2Fmap ((c2Obs.length : Int) - 3 + 1)).length =
        ((c2Obs.length : Int) - 3 + 1).toNat :=
  (dropObserverBySqlClient_drain_spec c2Env 3 1 c2Obs c2Fmap rfl rfl rfl
    rfl (by decide)).2 (by decide)

/-! ## C4 -/

def c4Obs : List Frontend := [⟨("doris-fe-x.svc"), 0⟩]

def c4Env : FEDropEnv :=
  { connectErr := none, observersRes := Except.ok c4Obs, startModeFQDN := true,
    podTemplateName := ("doris-fe"), podsRes := Except.ok [],
    dropObserverErr := fun _ => none }

/-- Counterexample for C4 as stated: the single observer host
`doris-fe-x.svc` has an unparsable trailing ordinal, so topology
resolution fails, yet `dropObserverBySqlClient` (with desired replicas
0 and quorum 1, hence a positive `needRemoved` of 2) swallows that
error and reports success with no removal call. -/
theorem dropObserver_swallows_resolution_error_cex :
    (BuildSeqNumberToFrontendMap c4Obs none ("doris-fe")).toOption = none ∧
      dropObserverBySqlClient c4Env 0 1 = { dropCalls := [], result := none } := by
  decide

/-- C4 (amended): every directory-client error (connection, node
listing, removal call) is returned on both paths — on the
compute-group path connection, backend-listing and DropBE errors, and
an unparsable backend ordinal, are returned, the latter with no
removal call; on the metadata-tier path connection, GetObservers and
DropObserver errors are returned — but a topology-resolution failure
(BuildSeqNumberToFrontendMap, in DNS-stable mode and in IP mode alike)
or a pod-listing failure on the metadata-tier path is logged and
swallowed: the function returns success with no removal call. -/
theorem drain_error_propagation :
    (∀ (benv : BEDropEnv) (keep : Int) (e : String), benv.connectErr = some e →
        (scaledOutBENodesBySQL benv keep).result = some e) ∧
      (∀ (benv : BEDropEnv) (keep : Int) (e : String), benv.connectErr = none →
        benv.backendsRes = Except.error e →
        (scaledOutBENodesBySQL benv keep).result = some e) ∧
      (∀ (benv : BEDropEnv) (keep : Int) (bs : List Backend) (e : String),
        benv.connectErr = none → benv.backendsRes = Except.ok bs →
        computeDropNodes bs keep = Except.error e →
        scaledOutBENodesBySQL benv keep = { dropCalls := [], result := some e }) ∧
      (∀ (benv : BEDropEnv) (keep : Int) (bs dn : List Backend),
        benv.connectErr = none → benv.backendsRes = Except.ok bs →
        computeDropNodes bs keep = Except.ok dn → dn ≠ [] →
        (scaledOutBENodesBySQL benv keep).result = benv.dropBEErr dn) ∧
      (∀ (env : FEDropEnv) (r q : Int) (e : String), env.connectErr = some e →
        (dropObserverBySqlClient env r q).result = some e) ∧
      (∀ (env : FEDropEnv) (r q : Int) (e : String), env.connectErr = none →
        env.observersRes = Except.error e →
        (dropObserverBySqlClient env r q).result = some e) ∧
      (∀ (env : FEDropEnv) (r q : Int) (obs : List Frontend) (e : String),
        env.connectErr = none → env.observersRes = Except.ok obs →
        env.startModeFQDN = true →
        BuildSeqNumberToFrontendMap obs none env.podTemplateName = Except.error e →
        0 < (obs.length : Int) - r + q →
        dropObserverBySqlClient env r q = { dropCalls := [], result := none }) ∧
      (∀ (env : FEDropEnv) (r q : Int) (obs : List Frontend) (e : String),
        env.connectErr = none → env.observersRes = Except.ok obs →
        env.startModeFQDN = false → env.podsRes = Except.error e →
        0 < (obs.length : Int) - r + q →
        dropObserverBySqlClient env r q = { dropCalls := [], result := none }) ∧
      (∀ (env : FEDropEnv) (r q : Int) (obs : List Frontend)
          (fmap : List (Nat × Frontend)),
        env.connectErr = none → env.observersRes = Except.ok obs →
        env.startModeFQDN = true →
        BuildSeqNumberToFrontendMap obs none env.podTemplateName = Except.ok fmap →
        0 < (obs.length : Int) - r + q →
        (dropObserverBySqlClient env r q).result =
          env.dropObserverErr
            (FindNeedDeletedFrontends fmap ((obs.length : Int) - r + q))) ∧
      (∀ (env : FEDropEnv) (r q : Int) (obs : List Frontend) (pods : List FEPod)
          (e : String),
        env.connectErr = none → env.observersRes = Except.ok obs →
        env.startModeFQDN = false → env.podsRes = Except.ok pods →
        BuildSeqNumberToFrontendMap obs
            (some ((pods.filter
              (fun p => env.podTemplateName.data.isPrefixOf p.name.data)).map
                (fun p => (p.podIP, p.name)))) env.podTemplateName =
          Except.error e →
        0 < (obs.length : Int) - r + q →
        dropObserverBySqlClient env r q = { dropCalls := [], result := none }) := by
  refine ⟨?_, ?_, ?_, ?_, ?_, ?_, ?_, ?_, ?_, ?_⟩
  · intro benv keep e h
    simp [scaledOutBENodesBySQL, h]
  · intro benv keep e h1 h2
    simp [scaledOutBENodesBySQL, h1, h2]
  · intro benv keep bs e h1 h2 h3
    simp [scaledOutBENodesBySQL, h1, h2, h3]
  · intro benv keep bs dn h1 h2 h3 h4
    simp [scaledOutBENodesBySQL, h1, h2, h3, h4]
  · intro env r q e h
    simp [dropObserverBySqlClient, h]
  · intro env r q e h1 h2
    simp [dropObserverBySqlClient, h1, h2]
  · intro env r q obs e h1 h2 h3 h4 h5
    have hnle : ¬ ((obs.length : Int) - r + q ≤ 0) := by omega
    simp [dropObserverBySqlClient, h1, h2, h3, h4, hnle]
  · intro env r q obs e h1 h2 h3 h4 h5
    have hnle : ¬ ((obs.length : Int) - r + q ≤ 0) := by omega
    simp [dropObserverBySqlClient, h1, h2, h3, h4, hnle]
  · intro env r q obs fmap h1 h2 h3 h4 h5
    have hnle : ¬ ((obs.length : Int) - r + q ≤ 0) := by omega
    simp [dropObserverBySqlClient, h1, h2, h3, h4, hnle]
  · intro env r q obs pods e h1 h2 h3 h4 h5 h6
    have hnle : ¬ ((obs.length : Int) - r + q ≤ 0) := by omega
    simp [dropObserverBySqlClient, h1, h2, h3, h4, h5, hnle]

def c4PropEnv : BEDropEnv :=
  { connectErr := some ("no reachable leader"), backendsRes := Except.ok [],
    dropBEErr := fun _ => none }

def c4PropObs : List Frontend :=
  [⟨("doris-fe-0.svc"), 0⟩, ⟨("doris-fe-1.svc"), 1⟩]

def c4PropFmap : List (Nat × Frontend) :=
  [(0, ⟨("doris-fe-0.svc"), 0⟩), (1, ⟨("doris-fe-1.svc"), 1⟩)]

def c4FEPropEnv : FEDropEnv :=
  { connectErr := none, observersRes := Except.ok c4PropObs,
    startModeFQDN := true, podTemplateName := ("doris-fe"),
    podsRes := Except.ok [],
    dropObserverErr := fun _ => some ("drop observer failed") }

/-- Witness for the amended C4: a compute-group drain whose leader
connection fails returns exactly that connection error, and a
metadata-tier drain whose DropObserver call fails returns exactly that
removal-call error. -/
theorem drain_error_propagation_witness :
    (scaledOutBENodesBySQL c4PropEnv 2).result = some ("no reachable leader") ∧
      (dropObserverBySqlClient c4FEPropEnv 2 1).result =
        c4FEPropEnv.dropObserverErr
          (FindNeedDeletedFrontends c4PropFmap ((c4PropObs.length : Int) - 2 + 1)) :=
  ⟨drain_error_propagation.1 c4PropEnv 2 ("no reachable leader") rfl,
    drain_error_propagation.2.2.2.2.2.2.2.2.1 c4FEPropEnv 2 1 c4PropObs c4PropFmap
      rfl rfl rfl rfl (by decide)⟩

/-! ## C7 -/

theorem reserveForOrdinal_length (stsName : String) (i paths : Nat) :
    (reserveForOrdinal stsName i paths).length = 1 + paths := by
  simp [reserveForOrdinal]
  omega

theorem reservePVCNames_length (stsName : String) (paths : Nat) :
    ∀ r : Nat, (reservePVCNames stsName paths r).length = r * paths + r := by
  intro r
  induction r with
  | zero => simp [reservePVCNames]
  | succ n ih =>
    simp [reservePVCNames, ih, reserveForOrdinal_length, Nat.succ_mul]
    omega

/-- C7: for a compute group still present in the specification, storage
reclamation skipped entirely when the phase is Suspended or
SuspendFailed or the desired replicas are zero; otherwise the retained
name list has exactly replicas times storage-path-count storage names
plus replicas log names, and deletion is attempted on exactly the
labeled claims outside that list. -/
theorem ClearStatefulsetUnusedPVCs_retention (specCGs : List ComputeGroup)
    (cgs : CGStatusRec) (env : PVCEnv) (cg : ComputeGroup) (pvcs : List String)
    (hfind : findLastCG specCGs cgs.uniqueId = some cg)
    (hlist : env.listResult = Except.ok pvcs) :
    ((cgs.phase = Phase.Suspended ∨ cgs.phase = Phase.SuspendFailed ∨
        cg.replicas = 0) →
      ClearStatefulsetUnusedPVCs specCGs cgs env = { deleted := [], err := none }) ∧
      (¬ (cgs.phase = Phase.Suspended ∨ cgs.phase = Phase.SuspendFailed ∨
          cg.replicas = 0) →
        (reservePVCNames cg.stsName cg.paths cg.replicas.toNat).length =
            cg.replicas.toNat * cg.paths + cg.replicas.toNat ∧
          ∀ n, n ∈ (ClearStatefulsetUnusedPVCs specCGs cgs env).deleted ↔
            (n ∈ pvcs ∧
              ¬ n ∈ reservePVCNames cg.stsName cg.paths cg.replicas.toNat)) := by
  constructor
  · intro h
    simp [ClearStatefulsetUnusedPVCs, hlist, hfind, h]
  · intro h
    refine ⟨reservePVCNames_length cg.stsName cg.paths cg.replicas.toNat, ?_⟩
    intro n
    simp [ClearStatefulsetUnusedPVCs, hlist, hfind, h, List.mem_filter,
      List.mem_dedup]

def c7Cg : ComputeGroup :=
  { uniqueId := ("g1"), replicas := 2, stsName := ("sts"), svcName := ("svc"),
    paths := 1 }

def c7Status : CGStatusRec :=
  { uniqueId := ("g1"), phase := Phase.Reconciling, statefulsetName := ("sts"),
    serviceName := ("svc"), replicas := 2, availableReplicas := 0,
    suspendReplicas := 0 }

def c7Pvcs : List String :=
  [("sts-0-log"), ("sts-0-storage0"), ("sts-1-log"), ("sts-1-storage0"),
    ("sts-5-log"), ("junk")]

def c7Env : PVCEnv :=
  { listResult := Except.ok c7Pvcs, deleteErr := fun _ => none }

/-- Witness for C7: two replicas with one storage path retain four
names, and the stray claim named junk is among the deletions. -/
theorem ClearStatefulsetUnusedPVCs_retention_witness :
    (reservePVCNames c7Cg.stsName c7Cg.paths c7Cg.replicas.toNat).length =
        c7Cg.replicas.toNat * c7Cg.paths + c7Cg.replicas.toNat ∧
      (("junk") ∈ (ClearStatefulsetUnusedPVCs [c7Cg] c7Status c7Env).deleted ↔
        (("junk") ∈ c7Pvcs ∧
          ¬ ("junk") ∈ reservePVCNames c7Cg.stsName c7Cg.paths c7Cg.replicas.toNat)) :=
  ⟨((ClearStatefulsetUnusedPVCs_retention [c7Cg] c7Status c7Env c7Cg c7Pvcs rfl
      rfl).2 (by decide)).1,
    ((ClearStatefulsetUnusedPVCs_retention [c7Cg] c7Status c7Env c7Cg c7Pvcs rfl
      rfl).2 (by decide)).2 ("junk")⟩

/-! ## C8 and C10 -/

theorem splitCGStatuses_fst (specIds : List String) :
    ∀ statuses : List CGStatusRec,
      (splitCGStatuses specIds statuses).1 =
        statuses.filter (fun s => specIds.contains s.uniqueId) := by
  intro statuses
  induction statuses with
  | nil => rfl
  | cons s rest ih =>
    by_cases h : s.uniqueId ∈ specIds
    · simp [splitCGStatuses, h, ih]
    · simp [splitCGStatuses, h, ih]

theorem splitCGStatuses_snd (specIds : List String) :
    ∀ statuses : List CGStatusRec,
      (splitCGStatuses specIds statuses).2 =
        statuses.filter (fun s => !(specIds.contains s.uniqueId)) := by
  intro statuses
  induction statuses with
  | nil => rfl
  | cons s rest ih =>
    by_cases h : s.uniqueId ∈ specIds
    · simp [splitCGStatuses, h, ih]
    · simp [splitCGStatuses, h, ih]

theorem processClearCGs_fst (env : DeleteEnv) :
    ∀ l : List CGStatusRec,
      (processClearCGs env l).1 = l.filter (fun s => !(clearedOf env s)) := by
  intro l
  induction l with
  | nil => rfl
  | cons s rest ih =>
    by_cases h : clearedOf env s
    · cases hr : (scaledOutBENodesBySQL
          (env.beDropEnv (replaceUnderscore s.uniqueId)) 0).result with
      | none => simp [processClearCGs, h, hr, ih]
      | some e => simp [processClearCGs, h, hr, ih]
    · simp [processClearCGs, h, ih]

/-- C8: a status entry for a group no longer in the specification is
removed from the persisted list exactly when both its StatefulSet
deletion and its Service deletion succeed; if either fails the entry is
retained for retry. -/
theorem ClearResources_retains_on_delete_failure (specIds : List String)
    (statuses : List CGStatusRec) (env : DeleteEnv) (s : CGStatusRec)
    (hmem : s ∈ statuses)
    (hgone : specIds.contains s.uniqueId = false) :
    s ∈ (ClearResources specIds statuses env).finalStatuses ↔
      ¬ (env.stsDeleteErr s.statefulsetName = none ∧
          env.svcDeleteErr s.serviceName = none) := by
  have hgone2 : s.uniqueId ∉ specIds := by simpa using hgone
  have hfinal : (ClearResources specIds statuses env).finalStatuses =
      (splitCGStatuses specIds statuses).1 ++
        (processClearCGs env (splitCGStatuses specIds statuses).2).1 := rfl
  rw [hfinal, splitCGStatuses_fst, splitCGStatuses_snd, processClearCGs_fst]
  simp only [List.mem_append, List.mem_filter]
  constructor
  · rintro (⟨_, hc⟩ | ⟨⟨_, _⟩, hncl⟩)
    · exact absurd (by simpa using hc) hgone2
    · intro hboth
      simp [clearedOf, hboth.1, hboth.2] at hncl
  · intro h
    have hcl : clearedOf env s = false := by
      cases ha : env.stsDeleteErr s.statefulsetName with
      | some e2 => simp [clearedOf, ha]
      | none =>
        cases hb : env.svcDeleteErr s.serviceName with
        | some e2 => simp [clearedOf, ha, hb]
        | none => exact absurd ⟨ha, hb⟩ h
    exact Or.inr ⟨⟨hmem, by simpa using hgone2⟩, by simp [hcl]⟩

def c8Status : CGStatusRec :=
  { uniqueId := ("g-old"), phase := Phase.Reconciling,
    statefulsetName := ("sts-old"), serviceName := ("svc-old"), replicas := 2,
    availableReplicas := 0, suspendReplicas := 0 }

def c8Env : DeleteEnv :=
  { stsDeleteErr := fun _ => some ("delete failed"),
    svcDeleteErr := fun _ => none,
    beDropEnv := fun _ =>
      { connectErr := none, backendsRes := Except.ok [],
        dropBEErr := fun _ => none } }

/-- Witness for C8: a removed group whose StatefulSet deletion fails
stays in the persisted status list. -/
theorem ClearResources_retains_on_delete_failure_witness :
    c8Status ∈ (ClearResources [("g1")] [c8Status] c8Env).finalStatuses ↔
      ¬ (c8Env.stsDeleteErr c8Status.statefulsetName = none ∧
          c8Env.svcDeleteErr c8Status.serviceName = none) :=
  ClearResources_retains_on_delete_failure [("g1")] [c8Status] c8Env c8Status
    (by simp) (by decide)

/-- A drop failure for a fully-cleared group leaves its warning event in
the recorded event list. -/
theorem processClearCGs_event_of_dropErr (env : DeleteEnv) :
    ∀ (l : List CGStatusRec) (s : CGStatusRec) (e : String),
      s ∈ l → clearedOf env s = true →
      (scaledOutBENodesBySQL (env.beDropEnv (replaceUnderscore s.uniqueId))
          0).result = some e →
      (("CGSqlExecFailed: computeGroupSync dropCGBySQLClient failed: ") ++ e) ∈
        (processClearCGs env l).2 := by
  intro l
  induction l with
  | nil => intro s e h; simp at h
  | cons t rest ih =>
    intro s e hmem hclr hdrop
    rcases List.mem_cons.mp hmem with heq | htail
    · subst heq
      have hsts : env.stsDeleteErr s.statefulsetName = none := by
        have := (Bool.and_eq_true _ _).mp hclr
        simpa [Option.isNone_iff_eq_none] using this.1
      have hsvc : env.svcDeleteErr s.serviceName = none := by
        have := (Bool.and_eq_true _ _).mp hclr
        simpa [Option.isNone_iff_eq_none] using this.2
      simp [processClearCGs, hclr, hdrop, hsts, hsvc]
    · have := ih s e htail hclr hdrop
      simp only [processClearCGs]
      simp [this]

/-- C10: for a group removed from the specification whose StatefulSet
and Service deletions both succeed, a failure of the database-side node
drop still drops the status entry from the persisted list — only a
warning event records the failure — and `ClearResources` always
returns `(true, nil)` whatever failed. -/
theorem ClearResources_drops_despite_sql_failure (specIds : List String)
    (statuses : List CGStatusRec) (env : DeleteEnv) (s : CGStatusRec) (e : String)
    (hmem : s ∈ statuses)
    (hgone : specIds.contains s.uniqueId = false)
    (hsts : env.stsDeleteErr s.statefulsetName = none)
    (hsvc : env.svcDeleteErr s.serviceName = none)
    (hdrop : (scaledOutBENodesBySQL
        (env.beDropEnv (replaceUnderscore s.uniqueId)) 0).result = some e) :
    s ∉ (ClearResources specIds statuses env).finalStatuses ∧
      (("CGSqlExecFailed: computeGroupSync dropCGBySQLClient failed: ") ++ e) ∈
        (ClearResources specIds statuses env).events ∧
      (∀ (ids2 : List String) (sts2 : List CGStatusRec) (env2 : DeleteEnv),
        (ClearResources ids2 sts2 env2).retBool = true ∧
          (ClearResources ids2 sts2 env2).retErr = none) := by
  have hclr : clearedOf env s = true := by
    simp [clearedOf, hsts, hsvc]
  have hgone2 : s.uniqueId ∉ specIds := by simpa using hgone
  refine ⟨?_, ?_, ?_⟩
  · have hfinal : (ClearResources specIds statuses env).finalStatuses =
        (splitCGStatuses specIds statuses).1 ++
          (processClearCGs env (splitCGStatuses specIds statuses).2).1 := rfl
    rw [hfinal, splitCGStatuses_fst, splitCGStatuses_snd, processClearCGs_fst]
    simp only [List.mem_append, List.mem_filter]
    rintro (⟨_, hc⟩ | ⟨_, hncl⟩)
    · exact absurd (by simpa using hc) hgone2
    · simp [hclr] at hncl
  · have hmem2 : s ∈ (splitCGStatuses specIds statuses).2 := by
      rw [splitCGStatuses_snd]
      exact List.mem_filter.mpr ⟨hmem, by simpa using hgone2⟩
    exact processClearCGs_event_of_dropErr env _ s e hmem2 hclr hdrop
  · intro ids2 sts2 env2
    exact ⟨rfl, rfl⟩

def c10Status : CGStatusRec :=
  { uniqueId := ("g-old"), phase := Phase.Reconciling,
    statefulsetName := ("sts-old"), serviceName := ("svc-old"), replicas := 0,
    availableReplicas := 0, suspendReplicas := 0 }

def c10Env : DeleteEnv :=
  { stsDeleteErr := fun _ => none,
    svcDeleteErr := fun _ => none,
    beDropEnv := fun _ =>
      { connectErr := some ("exec failed"), backendsRes := Except.ok [],
        dropBEErr := fun _ => none } }

/-- Witness for C10: a fully-deleted group whose database drop fails is
still removed from the status list, leaving only a warning event, and
the call returns true with no error. -/
theorem ClearResources_drops_despite_sql_failure_witness :
    c10Status ∉ (ClearResources [("g1")] [c10Status] c10Env).finalStatuses ∧
      (("CGSqlExecFailed: computeGroupSync dropCGBySQLClient failed: ") ++
          ("exec failed")) ∈ (ClearResources [("g1")] [c10Status] c10Env).events ∧
      (ClearResources [("g1")] [c10Status] c10Env).retBool = true ∧
      (ClearResources [("g1")] [c10Status] c10Env).retErr = none := by
  have h := ClearResources_drops_despite_sql_failure [("g1")] [c10Status] c10Env
    c10Status ("exec failed") (by simp) (by decide) rfl rfl rfl
  exact ⟨h.1, h.2.1, h.2.2 [("g1")] [c10Status] c10Env⟩

end DorisOperator
